import Mathlib

/-!
Verification of the fanart.tv TypeScript client (sayeed205/fanart.tv).

Strings are modelled as `List Char`.  JavaScript string operations used by the
source (`includes`, `lastIndexOf`, `trim`, `slice`, template concatenation) are
embedded as executable functions on `List Char`.  The JSON payload is modelled
by an inductive `Json` type, the HTTP layer by a stubbed `FetchOutcome`, and
the error classes of `src/utils/errors.ts` by a structure carrying the same
`name` / `statusCode` / `message` fields the TypeScript classes expose.
-/

/-- JS `needle` is a leading segment of `hay` (first argument is the needle). -/
def startsWithCl : List Char → List Char → Bool
  | [], _ => true
  | _ :: _, [] => false
  | a :: as, b :: bs => a == b && startsWithCl as bs

/-- JS `hay.includes(needle)`: substring containment on char lists. -/
def includesCl : List Char → List Char → Bool
  | [], needle => needle.isEmpty
  | c :: rest, needle => startsWithCl needle (c :: rest) || includesCl rest needle

/-- JS `url.lastIndexOf "."` mapped to `Option Nat` (`none` for -1). -/
def lastIndexOfDot : List Char → Option Nat
  | [] => none
  | c :: rest =>
      match lastIndexOfDot rest with
      | some j => some (j + 1)
      | none => if c == '.' then some 0 else none

/-- The literal `"fanart.tv"` tested by `convertToPreviewUrl`. -/
def FANART_MARKER : List Char := "fanart.tv".data

/-- `PREVIEW_SUFFIX` from `src/utils/constants.ts`. -/
def PREVIEW_SUFFIX : List Char := "/preview".data

/-- `BaseClient.convertToPreviewUrl` from `src/modules/base.ts` (lines 182-202):
only fanart.tv URLs are processed, URLs already holding the preview suffix are
returned unchanged, otherwise the suffix is inserted before the last dot, or
appended when there is no dot. -/
def convertToPreviewUrl (url : List Char) : List Char :=
  if !(includesCl url FANART_MARKER) then url
  else if includesCl url PREVIEW_SUFFIX then url
  else
    match lastIndexOfDot url with
    | none => url ++ PREVIEW_SUFFIX
    | some i => url.take i ++ PREVIEW_SUFFIX ++ url.drop i

theorem startsWithCl_append_self (n t : List Char) :
    startsWithCl n (n ++ t) = true := by
  induction n with
  | nil => rfl
  | cons a as ih => simp [startsWithCl, ih]

theorem includesCl_nil_needle (hay : List Char) : includesCl hay [] = true := by
  cases hay <;> simp [includesCl, startsWithCl, List.isEmpty]

theorem includesCl_of_startsWith (hay n : List Char)
    (h : startsWithCl n hay = true) : includesCl hay n = true := by
  cases hay with
  | nil => cases n with
    | nil => rfl
    | cons a as => simp [startsWithCl] at h
  | cons c rest => simp [includesCl, h]

theorem includesCl_mid (n a c : List Char) :
    includesCl (a ++ n ++ c) n = true := by
  induction a with
  | nil =>
      refine includesCl_of_startsWith _ _ ?_
      simpa using startsWithCl_append_self n c
  | cons x xs ih =>
      simp only [includesCl, List.cons_append, List.append_assoc] at ih ⊢
      simp [ih]

theorem lastIndexOfDot_none (l : List Char) (h : lastIndexOfDot l = none) :
    '.' ∉ l := by
  induction l with
  | nil => simp
  | cons c rest ih =>
      simp only [lastIndexOfDot] at h
      cases hr : lastIndexOfDot rest with
      | some j => rw [hr] at h; simp at h
      | none =>
          rw [hr] at h
          by_cases hc : c = '.'
          · simp [hc] at h
          · simp only [List.mem_cons, not_or]
            exact ⟨fun he => hc he.symm, ih hr⟩

theorem lastIndexOfDot_some (l : List Char) (i : Nat)
    (h : lastIndexOfDot l = some i) :
    l.drop i = '.' :: l.drop (i + 1) ∧ '.' ∉ l.drop (i + 1) := by
  induction l generalizing i with
  | nil => simp [lastIndexOfDot] at h
  | cons c rest ih =>
      simp only [lastIndexOfDot] at h
      cases hr : lastIndexOfDot rest with
      | some j =>
          rw [hr] at h
          simp only [Option.some.injEq] at h
          subst h
          simpa using ih j hr
      | none =>
          rw [hr] at h
          by_cases hc : c = '.'
          · simp only [hc, beq_self_eq_true, if_pos] at h
            simp only [Option.some.injEq] at h
            subst h
            simpa [hc] using lastIndexOfDot_none rest hr
          · simp [hc] at h

theorem convertToPreviewUrl_fixed_of_not_fanart (url : List Char)
    (h : includesCl url FANART_MARKER = false) :
    convertToPreviewUrl url = url := by
  simp [convertToPreviewUrl, h]

theorem convertToPreviewUrl_fixed_of_has_suffix (url : List Char)
    (h : includesCl url PREVIEW_SUFFIX = true) :
    convertToPreviewUrl url = url := by
  cases hf : includesCl url FANART_MARKER <;>
    simp [convertToPreviewUrl, hf, h]

/-- C1: for a URL containing "fanart.tv" and not containing "/preview", the
rewrite inserts "/preview" immediately before the last dot when a dot exists
(the part after the insertion point contains no further dot), and appends
"/preview" when no dot exists; and the worked example from the spec rewrites
to exactly the expected string. -/
theorem convertToPreviewUrl_inserts_before_last_dot :
    (∀ url : List Char, includesCl url FANART_MARKER = true →
        includesCl url PREVIEW_SUFFIX = false →
        ((∃ a b, url = a ++ '.' :: b ∧ '.' ∉ b ∧
            convertToPreviewUrl url = a ++ PREVIEW_SUFFIX ++ '.' :: b) ∨
          ('.' ∉ url ∧ convertToPreviewUrl url = url ++ PREVIEW_SUFFIX))) ∧
    convertToPreviewUrl "https://assets.fanart.tv/fanart/movies/1/p.jpg".data =
      "https://assets.fanart.tv/fanart/movies/1/p/preview.jpg".data := by
  constructor
  · intro url hfan hprev
    cases hd : lastIndexOfDot url with
    | none =>
        right
        refine ⟨lastIndexOfDot_none url hd, ?_⟩
        simp [convertToPreviewUrl, hfan, hprev, hd]
    | some i =>
        left
        obtain ⟨hsplit, hnot⟩ := lastIndexOfDot_some url i hd
        refine ⟨url.take i, url.drop (i + 1), ?_, hnot, ?_⟩
        · conv_lhs => rw [← List.take_append_drop i url]
          rw [hsplit]
        · have : convertToPreviewUrl url =
              url.take i ++ PREVIEW_SUFFIX ++ url.drop i := by
            simp [convertToPreviewUrl, hfan, hprev, hd]
          rw [this, hsplit]
  · decide

/-- Witness for C1 at a concrete fanart.tv URL with a dot. -/
theorem convertToPreviewUrl_inserts_before_last_dot_witness :
    includesCl "https://a.fanart.tv/x/y.jpg".data FANART_MARKER = true ∧
    includesCl "https://a.fanart.tv/x/y.jpg".data PREVIEW_SUFFIX = false ∧
    ((∃ a b, "https://a.fanart.tv/x/y.jpg".data = a ++ '.' :: b ∧ '.' ∉ b ∧
        convertToPreviewUrl "https://a.fanart.tv/x/y.jpg".data =
          a ++ PREVIEW_SUFFIX ++ '.' :: b) ∨
      ('.' ∉ "https://a.fanart.tv/x/y.jpg".data ∧
        convertToPreviewUrl "https://a.fanart.tv/x/y.jpg".data =
          "https://a.fanart.tv/x/y.jpg".data ++ PREVIEW_SUFFIX)) :=
  ⟨by decide, by decide,
    convertToPreviewUrl_inserts_before_last_dot.1 _ (by decide) (by decide)⟩

/-- C2: the preview rewrite is idempotent on every input URL string. -/
theorem convertToPreviewUrl_idempotent (url : List Char) :
    convertToPreviewUrl (convertToPreviewUrl url) = convertToPreviewUrl url := by
  cases hf : includesCl url FANART_MARKER with
  | false => simp only [convertToPreviewUrl_fixed_of_not_fanart url hf]
  | true =>
      cases hp : includesCl url PREVIEW_SUFFIX with
      | true => simp only [convertToPreviewUrl_fixed_of_has_suffix url hp]
      | false =>
          cases hd : lastIndexOfDot url with
          | none =>
              have hr : convertToPreviewUrl url = url ++ PREVIEW_SUFFIX := by
                simp [convertToPreviewUrl, hf, hp, hd]
              rw [hr]
              apply convertToPreviewUrl_fixed_of_has_suffix
              simpa using includesCl_mid PREVIEW_SUFFIX url []
          | some i =>
              have hr : convertToPreviewUrl url =
                  url.take i ++ PREVIEW_SUFFIX ++ url.drop i := by
                simp [convertToPreviewUrl, hf, hp, hd]
              rw [hr]
              apply convertToPreviewUrl_fixed_of_has_suffix
              exact includesCl_mid PREVIEW_SUFFIX (url.take i) (url.drop i)

/-- C7: the rewrite is the identity on every URL not containing "fanart.tv". -/
theorem convertToPreviewUrl_identity_outside_fanart (url : List Char)
    (h : includesCl url FANART_MARKER = false) :
    convertToPreviewUrl url = url :=
  convertToPreviewUrl_fixed_of_not_fanart url h

/-- Witness for C7 at a concrete non-fanart URL. -/
theorem convertToPreviewUrl_identity_outside_fanart_witness :
    includesCl "https://example.com/a.jpg".data FANART_MARKER = false ∧
    convertToPreviewUrl "https://example.com/a.jpg".data =
      "https://example.com/a.jpg".data :=
  ⟨by decide, convertToPreviewUrl_identity_outside_fanart _ (by decide)⟩

/-- The JSON-like values produced by `response.json()`. -/
inductive Json where
  | null : Json
  | bool (b : Bool) : Json
  | num (n : Int) : Json
  | str (s : List Char) : Json
  | arr (items : List Json) : Json
  | obj (fields : List (List Char × Json)) : Json

/-- JavaScript falsiness of a JSON value (the `!data` guard in
`processImageUrls`); arrays and objects are always truthy. -/
def jsFalsy : Json → Bool
  | .null => true
  | .bool b => !b
  | .num n => n == 0
  | .str s => s.isEmpty
  | .arr _ => false
  | .obj _ => false

/-- The literal key `"url"` checked by `processImageUrls`. -/
def URL_KEY : List Char := "url".data

/-- The `typeof value === "string"` test of `processImageUrls`. -/
def isJsonString : Json → Bool
  | .str _ => true
  | _ => false

/-- Applies `convertToPreviewUrl` to the payload of a string value. -/
def jsonStrMapPreview : Json → Json
  | .str s => .str (convertToPreviewUrl s)
  | j => j

mutual
/-- `BaseClient.processImageUrls` from `src/modules/base.ts` (lines 145-174):
returns the data unchanged when `usePreview` is false or the value is falsy,
maps itself over arrays, rebuilds objects while rewriting string values under
the key "url", and returns primitives unchanged.  The `data.map` and
`Object.entries` loops of the source are expanded into the two elementwise
helpers below. -/
def processImageUrls (data : Json) (usePreview : Bool) : Json :=
  if !usePreview || jsFalsy data then data
  else
    match data with
    | .arr items => .arr (processImageUrlsList items usePreview)
    | .obj fields => .obj (processImageUrlsFields fields usePreview)
    | other => other
termination_by sizeOf data

/-- Elementwise recursion of `data.map((item) => processImageUrls(item, usePreview))`. -/
def processImageUrlsList (items : List Json) (usePreview : Bool) : List Json :=
  match items with
  | [] => []
  | j :: rest => processImageUrls j usePreview :: processImageUrlsList rest usePreview
termination_by sizeOf items

/-- The `for (const [key, value] of Object.entries(data))` loop of
`processImageUrls`: string values under the key "url" are converted, all
other values are processed recursively. -/
def processImageUrlsFields
    (fields : List (List Char × Json)) (usePreview : Bool) :
    List (List Char × Json) :=
  match fields with
  | [] => []
  | (k, v) :: rest =>
      (if k == URL_KEY && isJsonString v then (k, jsonStrMapPreview v)
       else (k, processImageUrls v usePreview)) ::
        processImageUrlsFields rest usePreview
termination_by sizeOf fields
end

/-- Holds when `v` is a string value and `w` is exactly its preview rewrite. -/
def isPreviewOfStr (v w : Json) : Bool :=
  match v, w with
  | .str s, .str t => t == convertToPreviewUrl s
  | _, _ => false

mutual
/-- Written after the words of the spec, for comparison with
`processImageUrls`: the output differs from the input only in that every
string value stored under a key literally named "url" has been replaced by
its preview rewrite; all other keys, values, key order and nesting structure
are unchanged, and primitive values are kept as they are. -/
def previewRewriteOnly (a b : Json) : Bool :=
  match a, b with
  | .null, .null => true
  | .bool x, .bool y => x == y
  | .num x, .num y => x == y
  | .str x, .str y => x == y
  | .arr xs, .arr ys => previewRewriteOnlyList xs ys
  | .obj fs, .obj gs => previewRewriteOnlyFields fs gs
  | _, _ => false
termination_by sizeOf a

/-- Elementwise `previewRewriteOnly` over same-length arrays. -/
def previewRewriteOnlyList (xs ys : List Json) : Bool :=
  match xs, ys with
  | [], [] => true
  | x :: xr, y :: yr => previewRewriteOnly x y && previewRewriteOnlyList xr yr
  | _, _ => false
termination_by sizeOf xs

/-- Fieldwise comparison: keys equal in order; values under the key "url"
that are strings are replaced by their preview rewrite, all other values are
related recursively. -/
def previewRewriteOnlyFields
    (fs gs : List (List Char × Json)) : Bool :=
  match fs, gs with
  | [], [] => true
  | (k, v) :: fr, (k2, w) :: gr =>
      k == k2 &&
      (if k == URL_KEY && isJsonString v then isPreviewOfStr v w
       else previewRewriteOnly v w) &&
      previewRewriteOnlyFields fr gr
  | _, _ => false
termination_by sizeOf fs
end

theorem processImageUrls_null : processImageUrls .null true = .null := by
  simp [processImageUrls, jsFalsy]

theorem processImageUrls_bool (b : Bool) :
    processImageUrls (.bool b) true = .bool b := by
  cases b <;> simp [processImageUrls, jsFalsy]

theorem processImageUrls_num (n : Int) :
    processImageUrls (.num n) true = .num n := by
  by_cases h : n = 0 <;> simp [processImageUrls, jsFalsy, h]

theorem processImageUrls_str (s : List Char) :
    processImageUrls (.str s) true = .str s := by
  cases hs : s.isEmpty <;> simp [processImageUrls, jsFalsy, hs]

theorem processImageUrls_arr (items : List Json) :
    processImageUrls (.arr items) true =
      .arr (processImageUrlsList items true) := by
  simp [processImageUrls, jsFalsy]

theorem processImageUrls_obj (fields : List (List Char × Json)) :
    processImageUrls (.obj fields) true =
      .obj (processImageUrlsFields fields true) := by
  simp [processImageUrls, jsFalsy]

theorem isPreviewOfStr_map (v : Json) (hv : isJsonString v = true) :
    isPreviewOfStr v (jsonStrMapPreview v) = true := by
  cases v <;> simp_all [isJsonString, jsonStrMapPreview, isPreviewOfStr]

theorem previewRewriteOnlyList_proc (items : List Json)
    (h : ∀ j ∈ items,
        previewRewriteOnly j (processImageUrls j true) = true) :
    previewRewriteOnlyList items (processImageUrlsList items true) = true := by
  induction items with
  | nil => simp [previewRewriteOnlyList, processImageUrlsList]
  | cons x xr ih =>
      simp only [processImageUrlsList, previewRewriteOnlyList]
      rw [h x (by simp), ih (fun j hj => h j (by simp [hj]))]
      rfl

theorem previewRewriteOnlyFields_proc (fields : List (List Char × Json))
    (h : ∀ kv ∈ fields,
        previewRewriteOnly kv.2 (processImageUrls kv.2 true) = true) :
    previewRewriteOnlyFields fields (processImageUrlsFields fields true)
      = true := by
  induction fields with
  | nil => simp [previewRewriteOnlyFields, processImageUrlsFields]
  | cons kv fr ih =>
      obtain ⟨k, v⟩ := kv
      have hrest := ih (fun p hp => h p (by simp [hp]))
      by_cases hg : (k == URL_KEY && isJsonString v) = true
      · simp only [processImageUrlsFields, hg, if_true, previewRewriteOnlyFields,
          beq_self_eq_true, Bool.true_and]
        rw [isPreviewOfStr_map v ((Bool.and_eq_true _ _).mp hg).2, hrest]
        rfl
      · have hv : (if (k == URL_KEY && isJsonString v) = true then
              (k, jsonStrMapPreview v)
            else (k, processImageUrls v true)) = (k, processImageUrls v true) :=
          if_neg hg
        have h0 : previewRewriteOnly v (processImageUrls v true) = true :=
          h (k, v) (by simp)
        simp only [processImageUrlsFields, hv, previewRewriteOnlyFields,
          beq_self_eq_true, Bool.true_and]
        rw [if_neg hg, h0, hrest]
        rfl

/-- C8: with `usePreview` set, the walk over the parsed JSON structure
changes only string values stored under a key literally named "url"
(replacing each by its preview rewrite); every other key, value, nesting
structure and key order is preserved, and primitives are returned as-is. -/
theorem processImageUrls_changes_only_url_strings (data : Json) :
    previewRewriteOnly data (processImageUrls data true) = true := by
  suffices h : ∀ (n : Nat) (d : Json), sizeOf d ≤ n →
      previewRewriteOnly d (processImageUrls d true) = true from
    h (sizeOf data) data le_rfl
  intro n
  induction n using Nat.strong_induction_on with
  | _ n ih =>
      intro d hle
      cases d with
      | null => rw [processImageUrls_null]; simp [previewRewriteOnly]
      | bool b => rw [processImageUrls_bool]; simp [previewRewriteOnly]
      | num m => rw [processImageUrls_num]; simp [previewRewriteOnly]
      | str s => rw [processImageUrls_str]; simp [previewRewriteOnly]
      | arr items =>
          rw [processImageUrls_arr]
          simp only [previewRewriteOnly]
          apply previewRewriteOnlyList_proc
          intro j hj
          have hsz : sizeOf j < sizeOf (Json.arr items) := by
            have := List.sizeOf_lt_of_mem hj
            simp only [Json.arr.sizeOf_spec]
            omega
          exact ih (sizeOf j) (by omega) j le_rfl
      | obj fields =>
          rw [processImageUrls_obj]
          simp only [previewRewriteOnly]
          apply previewRewriteOnlyFields_proc
          intro kv hkv
          have hsz : sizeOf kv.2 < sizeOf (Json.obj fields) := by
            have h1 := List.sizeOf_lt_of_mem hkv
            have h2 : sizeOf kv.2 < sizeOf kv := by
              obtain ⟨a, b⟩ := kv
              simp only [Prod.mk.sizeOf_spec]
              omega
            simp only [Json.obj.sizeOf_spec]
            omega
          exact ih (sizeOf kv.2) (by omega) kv.2 le_rfl

/-- JavaScript whitespace characters stripped by `String.prototype.trim`
(the ASCII subset, which is all the repository ever passes). -/
def isJsSpace (c : Char) : Bool :=
  c == ' ' || c == '\t' || c == '\n' || c == '\r' || c == '\x0b' || c == '\x0c'

/-- JS `s.trim()`: strip whitespace from both ends. -/
def jsTrim (s : List Char) : List Char :=
  ((s.dropWhile isJsSpace).reverse.dropWhile isJsSpace).reverse

/-- Error value shape shared by all classes of `src/utils/errors.ts`: a
`name` discriminant, a message, an optional HTTP status code and an optional
raw response body. -/
structure FanartApiError where
  name : List Char
  message : List Char
  statusCode : Option Nat
  response : Option (List Char)

/-- `new FanartApiError(message, statusCode?, response?)`. -/
def fanartApiError (message : List Char) (statusCode : Option Nat)
    (response : Option (List Char)) : FanartApiError :=
  ⟨"FanartApiError".data, message, statusCode, response⟩

/-- `new AuthenticationError(message)`: always carries status code 401. -/
def authenticationError (message : List Char) : FanartApiError :=
  ⟨"AuthenticationError".data, message, some 401, none⟩

/-- `new RateLimitError(message)`: always carries status code 429. -/
def rateLimitError (message : List Char) : FanartApiError :=
  ⟨"RateLimitError".data, message, some 429, none⟩

/-- `new NotFoundError(message)`: always carries status code 404. -/
def notFoundError (message : List Char) : FanartApiError :=
  ⟨"NotFoundError".data, message, some 404, none⟩

/-- `new TimeoutError(message)`: always carries status code 408. -/
def timeoutError (message : List Char) : FanartApiError :=
  ⟨"TimeoutError".data, message, some 408, none⟩

/-- `new NetworkError(message)`: no status code. -/
def networkError (message : List Char) : FanartApiError :=
  ⟨"NetworkError".data, message, none, none⟩

/-- JavaScript runtime class of a thrown error, as far as the catch block of
`makeRequest` can distinguish it (`instanceof TypeError`,
`instanceof SyntaxError`, anything else). -/
inductive JsErrClass where
  | typeError : JsErrClass
  | syntaxError : JsErrClass
  | otherError : JsErrClass
deriving DecidableEq

/-- An error thrown by the JavaScript runtime during `fetch` or body
handling (never an instance of `FanartApiError`). -/
structure JsThrown where
  name : List Char
  cls : JsErrClass
  message : List Char

/-- Outcome of the stubbed `fetch` call inside `makeRequest`: either an HTTP
response (with the best-effort body text, `none` when `response.text()`
fails, and the result of `response.json()`, `.error msg` for a SyntaxError
carrying `msg`), or an error thrown before a response was obtained. -/
inductive FetchOutcome where
  | response (status : Nat) (bodyText : Option (List Char))
      (jsonResult : Except (List Char) Json) : FetchOutcome
  | thrown (e : JsThrown) : FetchOutcome

/-- `response.ok`: HTTP status in the inclusive range 200-299. -/
def statusOk (status : Nat) : Bool :=
  decide (200 ≤ status) && decide (status ≤ 299)

/-- The catch block of `BaseClient.makeRequest` (lines 106-135) applied to a
caught error that is not a `FanartApiError` (internally raised
`FanartApiError`s are rethrown unchanged by the `instanceof` branch): abort
errors become timeouts, TypeErrors whose message mentions "fetch" become
network errors, SyntaxErrors become "Invalid JSON response" API errors, and
everything else becomes an "Unexpected error" API error. -/
def classifyCaught (e : JsThrown) : FanartApiError :=
  if e.name == "AbortError".data then
    timeoutError "Request timed out after 10 seconds".data
  else if decide (e.cls = .typeError) && includesCl e.message "fetch".data then
    networkError ("Network error: ".data ++ e.message)
  else if e.cls = .syntaxError then
    fanartApiError ("Invalid JSON response: ".data ++ e.message) none none
  else
    fanartApiError ("Unexpected error: ".data ++ e.message) none none

/-- `BaseClient.makeRequest` (lines 58-136) against a stubbed fetch: status
classification for non-success responses, JSON parsing, optional preview
rewriting, and the catch-block classification for thrown errors. -/
def makeRequest (outcome : FetchOutcome) (usePreview : Bool) :
    Except FanartApiError Json :=
  match outcome with
  | .thrown e => .error (classifyCaught e)
  | .response status bodyText jsonResult =>
      if !(statusOk status) then
        .error
          (if status == 401 then
            authenticationError
              ("Invalid API key: ".data ++ bodyText.getD "Unknown error".data)
          else if status == 404 then
            notFoundError
              ("Resource not found: ".data ++ bodyText.getD "Unknown error".data)
          else if status == 429 then
            rateLimitError
              ("Rate limit exceeded: ".data ++ bodyText.getD "Unknown error".data)
          else
            fanartApiError
              ("API request failed: ".data ++ bodyText.getD "Unknown error".data)
              (some status) (some (bodyText.getD "Unknown error".data)))
      else
        match jsonResult with
        | .error msg =>
            .error (classifyCaught ⟨"SyntaxError".data, .syntaxError, msg⟩)
        | .ok data =>
            .ok (if usePreview then processImageUrls data true else data)

/-- An error surfaced to the caller of a module method: either a plain
JavaScript `Error` (used by the argument validation checks and by the
top-level `Fanart` constructor) or an error from the `FanartApiError`
hierarchy. -/
inductive ThrownError where
  | plain (message : List Char) : ThrownError
  | api (e : FanartApiError) : ThrownError

/-- `instanceof FanartApiError` on a surfaced error. -/
def isApiThrown : ThrownError → Bool
  | .api _ => true
  | .plain _ => false

/-- `instanceof AuthenticationError` on a surfaced error (discriminated by
the `name` field as the classes themselves do). -/
def isAuthenticationThrown : ThrownError → Bool
  | .api e => e.name == "AuthenticationError".data
  | .plain _ => false

/-- The message of the constructor validation errors. -/
def API_KEY_REQUIRED_MSG : List Char :=
  "API key is required and must be a non-empty string".data

/-- `BaseClient.constructor` (src/modules/base.ts lines 35-42).  `none`
stands for a non-string argument (which always fails the `typeof` check);
an empty or whitespace-only string fails the falsiness / trimmed-length
checks.  On success the trimmed key is stored and returned here. -/
def baseClientCtor : Option (List Char) → Except ThrownError (List Char)
  | none => .error (.api (authenticationError API_KEY_REQUIRED_MSG))
  | some s =>
      if s.isEmpty || (jsTrim s).isEmpty then
        .error (.api (authenticationError API_KEY_REQUIRED_MSG))
      else .ok (jsTrim s)

/-- `Fanart.constructor` (src/unnamed/part_004 lines 96-107): the same
guard, but throwing a plain `Error`, then construction of the modules with
the trimmed key (all modules store the same key, so the stored key is
returned once). -/
def fanartCtor : Option (List Char) → Except ThrownError (List Char)
  | none => .error (.plain API_KEY_REQUIRED_MSG)
  | some s =>
      if s.isEmpty || (jsTrim s).isEmpty then
        .error (.plain API_KEY_REQUIRED_MSG)
      else baseClientCtor (some (jsTrim s))

/-- A JavaScript number argument as far as `Number.isInteger` and the sign
check can distinguish it: an integer, or some non-integer number (a
fraction, `NaN`, an infinity). -/
inductive JsNumber where
  | int (n : Int) : JsNumber
  | nonInt : JsNumber

/-- Validation message of `MovieModule.get`. -/
def MOVIE_ID_MSG : List Char := "Movie ID must be a positive integer".data

/-- Validation message of `TvModule.get`. -/
def TVDB_ID_MSG : List Char := "TVDB ID must be a positive integer".data

/-- Validation message of `ArtistsModule.get`. -/
def MBID_MSG : List Char :=
  "MusicBrainz ID is required and must be a non-empty string".data

/-- Validation message of the `latest` methods. -/
def DATE_MSG : List Char := "Date must be in YYYY-MM-DD format".data

/-- JS regex `\d` (an ASCII digit). -/
def isAsciiDigit (c : Char) : Bool := decide ('0' ≤ c) && decide (c ≤ '9')

/-- The regex `^\d\x7b4\x7d-\d\x7b2\x7d-\d\x7b2\x7d$` used by every `latest`
method: exactly four digits, a dash, two digits, a dash, two digits. -/
def matchesDatePattern : List Char → Bool
  | [y1, y2, y3, y4, h1, m1, m2, h2, d1, d2] =>
      isAsciiDigit y1 && isAsciiDigit y2 && isAsciiDigit y3 && isAsciiDigit y4 &&
      h1 == '-' && isAsciiDigit m1 && isAsciiDigit m2 && h2 == '-' &&
      isAsciiDigit d1 && isAsciiDigit d2
  | _ => false

/-- `ENDPOINTS.MOVIES.GET` from `src/utils/constants.ts`. -/
def moviesGetEndpoint (movieId : Int) : List Char :=
  "/movies/".data ++ (toString movieId).data

/-- `ENDPOINTS.MOVIES.LATEST`: the date segment is added only when the date
is present and truthy (nonempty). -/
def moviesLatestEndpoint (date : Option (List Char)) : List Char :=
  "/movies/latest".data ++
    (match date with
     | some d => if d.isEmpty then [] else '/' :: d
     | none => [])

/-- `ENDPOINTS.MUSIC.ARTISTS.GET`. -/
def artistsGetEndpoint (mbid : List Char) : List Char :=
  "/music/".data ++ mbid

/-- `ENDPOINTS.MUSIC.ARTISTS.LATEST`. -/
def artistsLatestEndpoint (date : Option (List Char)) : List Char :=
  "/music/latest".data ++
    (match date with
     | some d => if d.isEmpty then [] else '/' :: d
     | none => [])

/-- `ENDPOINTS.TV.GET`. -/
def tvGetEndpoint (tvdbId : Int) : List Char :=
  "/tv/".data ++ (toString tvdbId).data

/-- `ENDPOINTS.TV.LATEST`. -/
def tvLatestEndpoint (date : Option (List Char)) : List Char :=
  "/tv/latest".data ++
    (match date with
     | some d => if d.isEmpty then [] else '/' :: d
     | none => [])

/-- `MovieModule.get` (src/unnamed/part_006 lines 65-72).  The pair carries
the surfaced outcome and the endpoint fetched (`none` when validation failed
before any network call was made). -/
def movieGet (movieId : JsNumber) (outcome : FetchOutcome)
    (usePreview : Bool) : Except ThrownError Json × Option (List Char) :=
  match movieId with
  | .nonInt => (.error (.plain MOVIE_ID_MSG), none)
  | .int n =>
      if n ≤ 0 then (.error (.plain MOVIE_ID_MSG), none)
      else
        ((makeRequest outcome usePreview).mapError .api,
          some (moviesGetEndpoint n))

/-- `TvModule.get` (src/modules/tv.ts lines 72-79). -/
def tvGet (tvdbId : JsNumber) (outcome : FetchOutcome)
    (usePreview : Bool) : Except ThrownError Json × Option (List Char) :=
  match tvdbId with
  | .nonInt => (.error (.plain TVDB_ID_MSG), none)
  | .int n =>
      if n ≤ 0 then (.error (.plain TVDB_ID_MSG), none)
      else
        ((makeRequest outcome usePreview).mapError .api,
          some (tvGetEndpoint n))

/-- `ArtistsModule.get` (src/modules/music.ts lines 41-50): a missing or
non-string MBID (`none`) and an empty or whitespace-only MBID fail
validation; otherwise the trimmed MBID is interpolated into the path. -/
def artistsGet (mbid : Option (List Char)) (outcome : FetchOutcome)
    (usePreview : Bool) : Except ThrownError Json × Option (List Char) :=
  match mbid with
  | none => (.error (.plain MBID_MSG), none)
  | some s =>
      if s.isEmpty || (jsTrim s).isEmpty then (.error (.plain MBID_MSG), none)
      else
        ((makeRequest outcome usePreview).mapError .api,
          some (artistsGetEndpoint (jsTrim s)))

/-- `MovieModule.latest` (src/unnamed/part_006 lines 103-110): the date is
format-checked only when it is truthy (present and nonempty); no options are
forwarded, so the preview rewrite is never applied. -/
def movieLatest (date : Option (List Char)) (outcome : FetchOutcome) :
    Except ThrownError Json × Option (List Char) :=
  match date with
  | none =>
      ((makeRequest outcome false).mapError .api,
        some (moviesLatestEndpoint none))
  | some d =>
      if !d.isEmpty && !(matchesDatePattern d) then
        (.error (.plain DATE_MSG), none)
      else
        ((makeRequest outcome false).mapError .api,
          some (moviesLatestEndpoint (some d)))

/-- `TvModule.latest` (src/modules/tv.ts lines 110-117). -/
def tvLatest (date : Option (List Char)) (outcome : FetchOutcome) :
    Except ThrownError Json × Option (List Char) :=
  match date with
  | none =>
      ((makeRequest outcome false).mapError .api, some (tvLatestEndpoint none))
  | some d =>
      if !d.isEmpty && !(matchesDatePattern d) then
        (.error (.plain DATE_MSG), none)
      else
        ((makeRequest outcome false).mapError .api,
          some (tvLatestEndpoint (some d)))

/-- `ArtistsModule.latest` (src/modules/music.ts lines 72-84): same date
check (`none` also stands for a non-string date, which the extra `typeof`
test there rejects the same way), with request options forwarded. -/
def artistsLatest (date : Option (List Char)) (outcome : FetchOutcome)
    (usePreview : Bool) : Except ThrownError Json × Option (List Char) :=
  match date with
  | none =>
      ((makeRequest outcome usePreview).mapError .api,
        some (artistsLatestEndpoint none))
  | some d =>
      if !d.isEmpty && !(matchesDatePattern d) then
        (.error (.plain DATE_MSG), none)
      else
        ((makeRequest outcome usePreview).mapError .api,
          some (artistsLatestEndpoint (some d)))

theorem includesCl_append_self (a n : List Char) :
    includesCl (a ++ n) n = true := by
  simpa using includesCl_mid n a []

/-- C3: a non-success response maps 401 to an Authentication-class error,
404 to NotFound, 429 to RateLimit and everything else to a generic API
error; each error carries the status code of the response and a message that
contains the response body text (or "Unknown error" when the body could not
be read). -/
theorem makeRequest_status_classification (status : Nat)
    (bodyText : Option (List Char)) (jsonResult : Except (List Char) Json)
    (usePreview : Bool) (h : statusOk status = false) :
    ∃ e, makeRequest (.response status bodyText jsonResult) usePreview =
        .error e ∧
      e.statusCode = some status ∧
      includesCl e.message (bodyText.getD "Unknown error".data) = true ∧
      e.name = (if status = 401 then "AuthenticationError".data
        else if status = 404 then "NotFoundError".data
        else if status = 429 then "RateLimitError".data
        else "FanartApiError".data) := by
  by_cases h401 : status = 401
  · subst h401
    exact ⟨authenticationError
        ("Invalid API key: ".data ++ bodyText.getD "Unknown error".data),
      by simp [makeRequest, h], rfl, includesCl_append_self _ _,
      by simp [authenticationError]⟩
  · by_cases h404 : status = 404
    · subst h404
      exact ⟨notFoundError
          ("Resource not found: ".data ++ bodyText.getD "Unknown error".data),
        by simp [makeRequest, h], rfl, includesCl_append_self _ _,
        by simp [notFoundError]⟩
    · by_cases h429 : status = 429
      · subst h429
        exact ⟨rateLimitError
            ("Rate limit exceeded: ".data ++
              bodyText.getD "Unknown error".data),
          by simp [makeRequest, h], rfl, includesCl_append_self _ _,
          by simp [rateLimitError]⟩
      · have e401 : (status == 401) = false := beq_eq_false_iff_ne.mpr h401
        have e404 : (status == 404) = false := beq_eq_false_iff_ne.mpr h404
        have e429 : (status == 429) = false := beq_eq_false_iff_ne.mpr h429
        exact ⟨fanartApiError
            ("API request failed: ".data ++ bodyText.getD "Unknown error".data)
            (some status) (some (bodyText.getD "Unknown error".data)),
          by simp [makeRequest, h, e401, e404, e429], rfl,
          includesCl_append_self _ _,
          by simp [fanartApiError, h401, h404, h429]⟩

/-- Witness for C3 at status 500 with an unreadable body. -/
theorem makeRequest_status_classification_witness :
    statusOk 500 = false ∧
    ∃ e, makeRequest (.response 500 none (.ok .null)) false = .error e ∧
      e.statusCode = some 500 ∧
      includesCl e.message
        ((none : Option (List Char)).getD "Unknown error".data) = true ∧
      e.name = (if 500 = 401 then "AuthenticationError".data
        else if 500 = 404 then "NotFoundError".data
        else if 500 = 429 then "RateLimitError".data
        else "FanartApiError".data) :=
  ⟨by decide,
    makeRequest_status_classification 500 none (.ok .null) false (by decide)⟩

/-- C4 counterexample: a transport error thrown before any HTTP response
that is not a TypeError with "fetch" in its message (here a plain Error
"connection reset by peer") is surfaced as a generic API error whose name is
"FanartApiError", not as a Network-class error. -/
theorem makeRequest_transport_error_not_network :
    makeRequest
        (.thrown ⟨"Error".data, .otherError,
          "connection reset by peer".data⟩) false =
      .error (fanartApiError
        ("Unexpected error: ".data ++ "connection reset by peer".data)
        none none) ∧
    (fanartApiError
        ("Unexpected error: ".data ++ "connection reset by peer".data)
        none none).name ≠ "NetworkError".data := by
  exact ⟨rfl, by decide⟩

/-- C4 amended: a missing credential fails construction with an
Authentication-class error; an aborted request yields a Timeout-class error;
a thrown TypeError whose message contains "fetch" yields a Network-class
error wrapping the underlying message; any other thrown error yields a
generic API error (not a Network-class one); responses and JSON-parse
failures fall through to the status/parse classification. -/
theorem makeRequest_thrown_classification (up : Bool) (e : JsThrown) :
    baseClientCtor none =
      .error (.api (authenticationError API_KEY_REQUIRED_MSG)) ∧
    (e.name = "AbortError".data →
      makeRequest (.thrown e) up =
        .error (timeoutError "Request timed out after 10 seconds".data)) ∧
    (e.name ≠ "AbortError".data → e.cls = .typeError →
      includesCl e.message "fetch".data = true →
      makeRequest (.thrown e) up =
        .error (networkError ("Network error: ".data ++ e.message))) ∧
    (e.name ≠ "AbortError".data →
      (decide (e.cls = .typeError) && includesCl e.message "fetch".data)
        = false →
      e.cls ≠ .syntaxError →
      makeRequest (.thrown e) up =
        .error (fanartApiError ("Unexpected error: ".data ++ e.message)
          none none)) := by
  refine ⟨rfl, ?_, ?_, ?_⟩
  · intro h
    simp [makeRequest, classifyCaught, h]
  · intro h1 h2 h3
    have hb : (e.name == "AbortError".data) = false :=
      beq_eq_false_iff_ne.mpr h1
    simp [makeRequest, classifyCaught, hb, h2, h3]
  · intro h1 h2 h3
    have hb : (e.name == "AbortError".data) = false :=
      beq_eq_false_iff_ne.mpr h1
    simp [makeRequest, classifyCaught, hb, h2, h3]

/-- Witness for C4 amended: an abort becomes a timeout and a TypeError with
"fetch" in its message becomes a network error. -/
theorem makeRequest_thrown_classification_witness :
    makeRequest
        (.thrown ⟨"AbortError".data, .otherError, "aborted".data⟩) false =
      .error (timeoutError "Request timed out after 10 seconds".data) ∧
    makeRequest
        (.thrown ⟨"TypeError".data, .typeError, "Failed to fetch".data⟩)
        false =
      .error (networkError ("Network error: ".data ++
        "Failed to fetch".data)) :=
  ⟨(makeRequest_thrown_classification false
      ⟨"AbortError".data, .otherError, "aborted".data⟩).2.1 rfl,
   (makeRequest_thrown_classification false
      ⟨"TypeError".data, .typeError, "Failed to fetch".data⟩).2.2.1
      (by decide) rfl (by decide)⟩

theorem dropWhile_dropWhile_self (p : Char → Bool) (l : List Char) :
    (l.dropWhile p).dropWhile p = l.dropWhile p := by
  induction l with
  | nil => rfl
  | cons c cs ih =>
      by_cases h : p c = true
      · simp [List.dropWhile_cons, h, ih]
      · simp [List.dropWhile_cons, h]

theorem dropWhile_reverse_trimmed (l : List Char)
    (hl : l.dropWhile isJsSpace = l) :
    ((l.reverse.dropWhile isJsSpace).reverse).dropWhile isJsSpace =
      (l.reverse.dropWhile isJsSpace).reverse := by
  have hsplit : l.reverse.takeWhile isJsSpace ++
      l.reverse.dropWhile isJsSpace = l.reverse :=
    List.takeWhile_append_dropWhile isJsSpace l.reverse
  have hl2 : l = (l.reverse.dropWhile isJsSpace).reverse ++
      (l.reverse.takeWhile isJsSpace).reverse := by
    conv_lhs => rw [← List.reverse_reverse l, ← hsplit]
    rw [List.reverse_append]
  cases hbr : (l.reverse.dropWhile isJsSpace).reverse with
  | nil => rfl
  | cons c rest =>
      rw [hbr, List.cons_append] at hl2
      have hpc : isJsSpace c = false := by
        cases hx : isJsSpace c
        · rfl
        · exfalso
          rw [hl2] at hl
          rw [List.dropWhile_cons, if_pos hx] at hl
          have hlen := congrArg List.length hl
          have hle := (List.dropWhile_sublist
            (l := rest ++ (l.reverse.takeWhile isJsSpace).reverse)
            isJsSpace).length_le
          simp [List.length_append] at hlen hle
          omega
      rw [List.dropWhile_cons, if_neg (by simp [hpc])]

theorem jsTrim_idem (s : List Char) : jsTrim (jsTrim s) = jsTrim s := by
  unfold jsTrim
  rw [dropWhile_reverse_trimmed (s.dropWhile isJsSpace)
    (dropWhile_dropWhile_self _ _)]
  rw [List.reverse_reverse, dropWhile_dropWhile_self]

theorem jsTrim_nil : jsTrim [] = [] := rfl

/-- C5 counterexample: the top-level Fanart constructor rejects a
whitespace-only key with a plain Error, which is not an
Authentication-class error and not part of the FanartApiError hierarchy. -/
theorem fanartCtor_plain_error_counterexample :
    fanartCtor (some "   ".data) = .error (.plain API_KEY_REQUIRED_MSG) ∧
    isAuthenticationThrown (.plain API_KEY_REQUIRED_MSG) = false ∧
    isApiThrown (.plain API_KEY_REQUIRED_MSG) = false :=
  ⟨rfl, rfl, rfl⟩

/-- C5 amended: construction with a missing/non-string key or a key that is
empty after trimming fails immediately, before any network activity; the
module base classes raise an Authentication-class error while the top-level
Fanart client raises a plain Error with the same message; on success both
store the trimmed input string. -/
theorem ctor_validation (s : List Char) :
    ((jsTrim s).isEmpty = true →
      baseClientCtor (some s) =
          .error (.api (authenticationError API_KEY_REQUIRED_MSG)) ∧
        fanartCtor (some s) = .error (.plain API_KEY_REQUIRED_MSG)) ∧
    ((jsTrim s).isEmpty = false →
      baseClientCtor (some s) = .ok (jsTrim s) ∧
        fanartCtor (some s) = .ok (jsTrim s)) ∧
    baseClientCtor none =
      .error (.api (authenticationError API_KEY_REQUIRED_MSG)) ∧
    fanartCtor none = .error (.plain API_KEY_REQUIRED_MSG) := by
  refine ⟨?_, ?_, rfl, rfl⟩
  · intro h
    constructor <;> simp [baseClientCtor, fanartCtor, h]
  · intro h
    have hs : s.isEmpty = false := by
      cases s with
      | nil => rw [jsTrim_nil] at h; simp at h
      | cons c cs => rfl
    have h2 : (jsTrim (jsTrim s)).isEmpty = false := by
      rw [jsTrim_idem]; exact h
    constructor
    · simp [baseClientCtor, hs, h]
    · simp [fanartCtor, baseClientCtor, hs, h, h2, jsTrim_idem]

/-- Witness for C5 amended: a padded key is trimmed and stored, a
whitespace-only key is rejected by the base class constructor. -/
theorem ctor_validation_witness :
    ((jsTrim "  key  ".data).isEmpty = false ∧
      baseClientCtor (some "  key  ".data) = .ok (jsTrim "  key  ".data) ∧
      fanartCtor (some "  key  ".data) = .ok (jsTrim "  key  ".data)) ∧
    ((jsTrim "   ".data).isEmpty = true ∧
      baseClientCtor (some "   ".data) =
        .error (.api (authenticationError API_KEY_REQUIRED_MSG))) :=
  ⟨⟨rfl, ((ctor_validation "  key  ".data).2.1 rfl).1,
      ((ctor_validation "  key  ".data).2.1 rfl).2⟩,
    ⟨rfl, ((ctor_validation "   ".data).1 rfl).1⟩⟩

/-- C6: every invalid caller-supplied argument (a non-positive or
non-integer numeric identifier, an empty or whitespace-only or missing
string identifier, a truthy malformed date) makes the accessor fail with a
plain validation Error, no endpoint is ever fetched (`none` in the second
component), and such an error is never part of the FanartApiError
taxonomy. -/
theorem accessor_validation_before_network (outcome : FetchOutcome)
    (up : Bool) :
    (∀ n : Int, n ≤ 0 →
      movieGet (.int n) outcome up = (.error (.plain MOVIE_ID_MSG), none)) ∧
    movieGet .nonInt outcome up = (.error (.plain MOVIE_ID_MSG), none) ∧
    (∀ n : Int, n ≤ 0 →
      tvGet (.int n) outcome up = (.error (.plain TVDB_ID_MSG), none)) ∧
    tvGet .nonInt outcome up = (.error (.plain TVDB_ID_MSG), none) ∧
    (∀ s : List Char, (jsTrim s).isEmpty = true →
      artistsGet (some s) outcome up = (.error (.plain MBID_MSG), none)) ∧
    artistsGet none outcome up = (.error (.plain MBID_MSG), none) ∧
    (∀ d : List Char, d.isEmpty = false → matchesDatePattern d = false →
      movieLatest (some d) outcome = (.error (.plain DATE_MSG), none) ∧
      tvLatest (some d) outcome = (.error (.plain DATE_MSG), none) ∧
      artistsLatest (some d) outcome up = (.error (.plain DATE_MSG), none)) ∧
    (∀ m : List Char, isApiThrown (.plain m) = false) := by
  refine ⟨?_, rfl, ?_, rfl, ?_, rfl, ?_, fun m => rfl⟩
  · intro n hn
    simp [movieGet, hn]
  · intro n hn
    simp [tvGet, hn]
  · intro s hs
    simp [artistsGet, hs]
  · intro d hd hpat
    refine ⟨?_, ?_, ?_⟩ <;>
      simp [movieLatest, tvLatest, artistsLatest, hd, hpat]

/-- Witness for C6 at a zero movie id, a whitespace MBID and a malformed
date, against a stub that would have returned success. -/
theorem accessor_validation_before_network_witness :
    movieGet (.int 0) (.response 200 none (.ok .null)) false =
      (.error (.plain MOVIE_ID_MSG), none) ∧
    artistsGet (some "   ".data) (.response 200 none (.ok .null)) false =
      (.error (.plain MBID_MSG), none) ∧
    movieLatest (some "2024-1-1".data) (.response 200 none (.ok .null)) =
      (.error (.plain DATE_MSG), none) :=
  ⟨(accessor_validation_before_network (.response 200 none (.ok .null))
      false).1 0 (by decide),
   (accessor_validation_before_network (.response 200 none (.ok .null))
      false).2.2.2.2.1 "   ".data rfl,
   ((accessor_validation_before_network (.response 200 none (.ok .null))
      false).2.2.2.2.2.2.1 "2024-1-1".data rfl rfl).1⟩

/-- C9 counterexample: the empty string is a supplied date string that does
not match the pattern, yet the latest accessor raises no validation error —
the request is made. -/
theorem latest_empty_date_not_validated :
    matchesDatePattern [] = false ∧
    movieLatest (some []) (.response 200 none (.ok .null)) =
      (.ok .null, some "/movies/latest".data) :=
  ⟨rfl, rfl⟩

/-- C9 amended: for every nonempty supplied date string that does not match
the pattern of four digits, dash, two digits, dash, two digits, each
"latest" accessor fails with a validation error; "2024-01-01" passes the
format check and the request proceeds with the date segment, "2024-1-1" and
"24-01-01" fail; no calendar validity is checked beyond the pattern (e.g.
"9999-99-99" passes); the empty string is exempt because the check only
runs on truthy dates. -/
theorem latest_date_validation (outcome : FetchOutcome) (up : Bool) :
    (∀ d : List Char, d.isEmpty = false → matchesDatePattern d = false →
      movieLatest (some d) outcome = (.error (.plain DATE_MSG), none) ∧
      tvLatest (some d) outcome = (.error (.plain DATE_MSG), none) ∧
      artistsLatest (some d) outcome up = (.error (.plain DATE_MSG), none)) ∧
    matchesDatePattern "2024-01-01".data = true ∧
    matchesDatePattern "2024-1-1".data = false ∧
    matchesDatePattern "24-01-01".data = false ∧
    matchesDatePattern "9999-99-99".data = true ∧
    (movieLatest (some "2024-01-01".data) outcome).2 =
      some "/movies/latest/2024-01-01".data := by
  refine ⟨?_, rfl, rfl, rfl, rfl, rfl⟩
  intro d hd hpat
  refine ⟨?_, ?_, ?_⟩ <;>
    simp [movieLatest, tvLatest, artistsLatest, hd, hpat]

/-- Witness for C9 amended at the malformed date "24-01-01". -/
theorem latest_date_validation_witness :
    movieLatest (some "24-01-01".data) (.response 200 none (.ok .null)) =
      (.error (.plain DATE_MSG), none) ∧
    tvLatest (some "24-01-01".data) (.response 200 none (.ok .null)) =
      (.error (.plain DATE_MSG), none) :=
  ⟨((latest_date_validation (.response 200 none (.ok .null)) false).1
      "24-01-01".data rfl rfl).1,
   ((latest_date_validation (.response 200 none (.ok .null)) false).1
      "24-01-01".data rfl rfl).2.1⟩

/-- C10: the empty string as a date raises no validation error and is
treated exactly like an absent date: the same call is made and the request
path carries no date segment. -/
theorem latest_empty_date_like_absent (outcome : FetchOutcome) (up : Bool) :
    movieLatest (some []) outcome = movieLatest none outcome ∧
    (movieLatest (some []) outcome).2 = some "/movies/latest".data ∧
    tvLatest (some []) outcome = tvLatest none outcome ∧
    artistsLatest (some []) outcome up = artistsLatest none outcome up := by
  refine ⟨rfl, rfl, rfl, rfl⟩
